import Mathlib

/-!
# Collectd monitor: change detection, plugin synthesis, lifecycle

A shallow embedding of `plugins/monitors/collectd/collectd.go`.

* The receiver `*Collectd` becomes an explicit state value that every
  operation takes and returns.
* Effects on the outside world (log lines, calls to the renderer, file
  writes, channel sends, the goroutine launch, calls into the C engine) are
  recorded, in program order, in a trace of `Event`s.
* Collaborators that live outside this file (`config.NewPlugin`,
  `config.LoadPluginConfig`, `config.RenderCollectdConf`, `ioutil.WriteFile`,
  `ioutil.ReadFile`, `json.Unmarshal`, `filepath.Abs`, the viper lookups) are
  fields of an environment record `Env` or of the `Viper` value, so every
  theorem holds for all of their behaviours.
* Go maps that are iterated (`Orchestration.Dims`, `StaticPlugins`) are lists
  of key/value pairs given in the order the iteration visits them.
-/

namespace CollectdMonitor

/-! ## Data model -/

/-- Go `error` value, identified by its message. -/
structure GoError where
  msg : String
deriving DecidableEq, Repr

/-- Lifecycle constant `Running`. -/
def Running : String := "running"

/-- Lifecycle constant `Stopped`. -/
def Stopped : String := "stopped"

/-- Lifecycle constant `Reloading`. -/
def Reloading : String := "reloading"

/-- Modelled from the spec: the declaration of `services.PortType` (with its
constant `services.PRIVATE`) is missing; the spec gives a port-selection
preference with the two values private and public. -/
inductive PortType where
  | PRIVATE
  | PUBLIC
deriving DecidableEq, Repr

/-- Modelled from the spec: the declaration of the `Service` part of
`services.Instance` is missing; fields are the ones the source reads
(`service.Service.Type`, `service.Service.Name`). -/
structure Service where
  Typ : String
  Name : String
deriving DecidableEq, Repr

/-- Modelled from the spec: the `Port` part of `services.Instance`
(`service.Port.IP`, `service.Port.PrivatePort`, `service.Port.PublicPort`). -/
structure Port where
  IP : String
  PrivatePort : Nat
  PublicPort : Nat
deriving DecidableEq, Repr

/-- Modelled from the spec: the `Orchestration` part of `services.Instance`
(`service.Orchestration.Dims`, `service.Orchestration.PortPref`). The
dimension map is listed in iteration order. -/
structure Orchestration where
  Dims : List (String × String)
  PortPref : PortType
deriving DecidableEq, Repr

/-- Modelled from the spec: the declaration of `services.Instance` is
missing; fields are the ones the source reads. -/
structure Instance where
  ID : String
  Service : Service
  Port : Port
  Orchestration : Orchestration
deriving DecidableEq, Repr

/-- Modelled from the spec: the declaration of `config.Plugin` is missing;
the spec lists name, type, host, port, a flattened dimension string and an
ordered list of template names. -/
structure Plugin where
  Name : String
  Typ : String
  Host : String
  Port : Nat
  Dims : String
  Templates : List String
deriving DecidableEq, Repr

/-- A value of Go type `interface{}` found in a static plugin declaration:
either a string or a value of some other dynamic type. -/
inductive YamlValue where
  | str (s : String)
  | other (tag : Nat)
deriving DecidableEq, Repr

/-- One entry of `StaticPlugins`: the plugin name and its
`map[string]interface{}` body. -/
abbrev StaticEntry := String × List (String × YamlValue)

/-- The settings source `*viper.Viper`, seen through the three lookups the
source performs on it. `Unmarshal` is the result of
`Config.Unmarshal(&static)`: an error, or the `StaticPlugins` map in
iteration order. -/
structure Viper where
  GetStringSlice : String → List String
  GetString : String → String
  Unmarshal : Except GoError (List StaticEntry)

/-- The type of `templatesMap`, `map[string][]string`, as its lookup. -/
abbrev TemplatesMap := String → Option (List String)

/-- The collaborators outside this file. -/
structure Env where
  /-- The value of `viper.GetString("hostname")` on the process-wide settings. -/
  hostname : String
  /-- The call `config.NewPlugin(type, name)`: an error for an unsupported
  type, else a fresh plugin instance with the defaults of the type. -/
  NewPlugin : String → String → Except GoError Plugin
  /-- The call `config.LoadPluginConfig(map "config" -> body, type, instance)`; the
  instance is updated through the pointer, here returned. -/
  LoadPluginConfig : List (String × YamlValue) → String → Plugin → Except GoError Plugin
  /-- The call `config.RenderCollectdConf(pluginsDir, templatesDirs, appConfig)` where
  the application config holds the hostname and the plugin list. -/
  RenderCollectdConf : String → List String → String → List Plugin → Except GoError String
  /-- The call `ioutil.WriteFile(path, data, perm)`; `none` is success. -/
  WriteFile : String → String → Nat → Option GoError
  /-- The call `ioutil.ReadFile(path)`. -/
  ReadFile : String → Except GoError String
  /-- The call `json.Unmarshal(data, &templatesMap)` into an empty map. -/
  jsonUnmarshal : String → Except GoError TemplatesMap
  /-- The call `filepath.Abs(path)`. -/
  Abs : String → Except GoError String

/-- The fields of `type Collectd struct` (the channels and the mutex are
represented by events and by sequential execution), together with the one
local of the goroutine `run` that outlives an iteration: `cConfFile`, the
copy of `confFile` that `run` takes before its loop and hands to every
`cf_read`. -/
structure Collectd where
  Config : Viper
  state : String
  services : List Instance
  templatesDirs : List String
  confFile : String
  pluginsDir : String
  templatesMap : TemplatesMap
  configDirty : Bool
  cConfFile : String

/-- Calls into the collectd C library made by `run`. -/
inductive EngineCall where
  | plugin_init_ctx
  | cf_read (path : String)
  | init_collectd
  | cf_get_default_interval
  | plugin_init_all
  | plugin_read_all
  | plugin_shutdown_all
  | plugin_shutdown_for_reload
  | plugin_init_for_reload
deriving DecidableEq, Repr

/-- The log statements of the source, one constructor each, with the values
they print. -/
inductive LogLine where
  /-- The line `reloading config due to dirty flag`. -/
  | dirtyFlag
  /-- The line `Configuring collectd plugins for ...`. -/
  | configuring (sis : List Instance)
  /-- The line `unsupported service ... for collectd`. -/
  | unsupported (typ : String)
  /-- The line `reconfiguring collectd service: ...`. -/
  | reconfiguring (name typ : String)
  /-- The line `Replacing templates ... with ... for ...`. -/
  | replacing (old new : List String) (name : String)
  /-- The line `Configured plugins: ...`. -/
  | configured (plugins : List Plugin)
  /-- The line `starting collectd`. -/
  | starting
  /-- The line `configuring static collectd plugins before first start`. -/
  | configuringStatic
  /-- The line `stop collectd requested`. -/
  | stopRequested
  /-- The line `reload collectd plugins requested`. -/
  | reloadRequested
deriving DecidableEq, Repr

/-- Observable effects, in program order. -/
inductive Event where
  | log (line : LogLine)
  /-- A call of `config.RenderCollectdConf`. -/
  | render (pluginsDir : String) (templatesDirs : List String) (hostname : String)
      (plugins : List Plugin)
  /-- A call of `ioutil.WriteFile`. -/
  | writeFile (path : String) (data : String) (perm : Nat)
  /-- The send `reloadChan <- v`. -/
  | reloadChanSend (v : Int)
  /-- The send `stopChan <- v`. -/
  | stopChanSend (v : Int)
  /-- The statement `go collectd.run()`. -/
  | goRun
  | engine (call : EngineCall)
deriving DecidableEq, Repr

/-- Result of an operation that returns `error`: the error (`none` is `nil`),
the state after the call, and the effects of the call. -/
structure Outcome where
  err : Option GoError
  collectd : Collectd
  trace : List Event

/-! ## Settings: `load`, `loadTemplatesMap`, `Reload` -/

/-- The function `loadTemplatesMap`: resolve the path, read the file, decode. -/
def loadTemplatesMap (env : Env) (path : String) : Except GoError TemplatesMap :=
  match env.Abs path with
  | .error err => .error err
  | .ok path =>
    match env.ReadFile path with
    | .error err => .error err
    | .ok data =>
      match env.jsonUnmarshal data with
      | .error err => .error err
      | .ok templatesMap => .ok templatesMap

/-- The loop of `load` that replaces each template directory by its absolute
path, stopping at the first failure. -/
def absAll (env : Env) : List String → Except GoError (List String)
  | [] => .ok []
  | dir :: rest =>
    match env.Abs dir with
    | .error err => .error err
    | .ok absTemplateDir =>
      match absAll env rest with
      | .error err => .error err
      | .ok restAbs => .ok (absTemplateDir :: restAbs)

/-- The method `load`: validates the settings and, once everything passes,
stores them in the receiver. Returns the error (if any) and the receiver.
The test `err != nil` after reading `pluginsDir` looks at the error of the
preceding `filepath.Abs`, already known to be `nil`, and never fires. -/
def load (env : Env) (collectd : Collectd) (config : Viper) : Option GoError × Collectd :=
  let templatesDirs := config.GetStringSlice "templatesdirs"
  if templatesDirs.length = 0 then
    (some ⟨"config missing templatesDirs entry"⟩, collectd)
  else
    match absAll env templatesDirs with
    | .error err => (some err, collectd)
    | .ok templatesDirs =>
      let confFile := config.GetString "conffile"
      if confFile = "" then
        (some ⟨"config missing confFile entry"⟩, collectd)
      else
        match env.Abs confFile with
        | .error err => (some err, collectd)
        | .ok confFile =>
          let pluginsDir := config.GetString "pluginsDir"
          let templatesMapPath := config.GetString "templatesMap"
          if templatesMapPath = "" then
            (some ⟨"config missing templatesMap entry"⟩, collectd)
          else
            match loadTemplatesMap env templatesMapPath with
            | .error err => (some err, collectd)
            | .ok templatesMap =>
              (none, { collectd with
                        templatesDirs := templatesDirs
                        confFile := confFile
                        pluginsDir := pluginsDir
                        templatesMap := templatesMap })

/-- The method `Reload`: load the new settings; on success store the
settings source and set the dirty flag. -/
def Reload (env : Env) (collectd : Collectd) (config : Viper) : Outcome :=
  match load env collectd config with
  | (some err, collectd) => ⟨some err, collectd, []⟩
  | (none, collectd) =>
    ⟨none, { collectd with Config := config, configDirty := true }, []⟩

/-! ## Plugin synthesis -/

/-- The inner loop of `createPluginsFromServices` over
`service.Orchestration.Dims`: appends `key=val` to `plugin.Dims`, separated
by commas. -/
def addDims : List (String × String) → Plugin → Plugin
  | [], plugin => plugin
  | (key, val) :: rest, plugin =>
    let dim := key ++ "=" ++ val
    let plugin := if plugin.Dims.length > 0 then { plugin with Dims := plugin.Dims ++ "," } else plugin
    addDims rest { plugin with Dims := plugin.Dims ++ dim }

/-- One iteration of the loop of `createPluginsFromServices`: the plugin
appended to the list (`none` when the iteration ends in `continue`) and the
lines it logs. -/
def serviceIteration (env : Env) (collectd : Collectd) (service : Instance) :
    Option Plugin × List Event :=
  match env.NewPlugin service.Service.Typ service.Service.Name with
  | .error _ => (none, [Event.log (LogLine.unsupported service.Service.Typ)])
  | .ok plugin =>
    let plugin := addDims service.Orchestration.Dims plugin
    let plugin := { plugin with Host := service.Port.IP }
    let plugin :=
      if service.Orchestration.PortPref = PortType.PRIVATE then
        { plugin with Port := service.Port.PrivatePort }
      else
        { plugin with Port := service.Port.PublicPort }
    if plugin.Port = 0 then
      (none, [])
    else
      match collectd.templatesMap service.Service.Name with
      | some templates =>
        (some { plugin with Templates := templates },
          [Event.log (LogLine.reconfiguring service.Service.Name service.Service.Typ),
           Event.log (LogLine.replacing plugin.Templates templates service.Service.Name)])
      | none =>
        (some plugin,
          [Event.log (LogLine.reconfiguring service.Service.Name service.Service.Typ)])

/-- The loop `for _, service := range sis` of `createPluginsFromServices`,
threading the plugin list built so far and the trace. -/
def servicesLoop (env : Env) (collectd : Collectd) :
    List Instance → List Plugin → List Event → List Plugin × List Event
  | [], plugins, tr => (plugins, tr)
  | service :: rest, plugins, tr =>
    match serviceIteration env collectd service with
    | (some plugin, logs) => servicesLoop env collectd rest (plugins ++ [plugin]) (tr ++ logs)
    | (none, logs) => servicesLoop env collectd rest plugins (tr ++ logs)

/-- The method `createPluginsFromServices`: its two results (plugin list and
error) and its trace. -/
def createPluginsFromServices (env : Env) (collectd : Collectd) (sis : List Instance) :
    Except GoError (List Plugin) × List Event :=
  let r := servicesLoop env collectd sis [] [Event.log (LogLine.configuring sis)]
  (.ok r.1, r.2 ++ [Event.log (LogLine.configured r.1)])

/-- The loop `for pluginName, plugin := range static.StaticPlugins` of
`getStaticPlugins`. -/
def staticLoop (env : Env) : List StaticEntry → List Plugin → Except GoError (List Plugin)
  | [], plugins => .ok plugins
  | (pluginName, plugin) :: rest, plugins =>
    match plugin.lookup "plugin" with
    | none => .error ⟨"static plugin " ++ pluginName ++ " missing plugin type"⟩
    | some (YamlValue.other _) => .error ⟨"static plugin " ++ pluginName ++ " is not a string"⟩
    | some (YamlValue.str pluginType) =>
      match env.NewPlugin pluginType pluginName with
      | .error err => .error err
      | .ok pluginInstance =>
        match env.LoadPluginConfig plugin pluginType pluginInstance with
        | .error err => .error err
        | .ok pluginInstance => staticLoop env rest (plugins ++ [pluginInstance])

/-- The method `getStaticPlugins`. -/
def getStaticPlugins (env : Env) (collectd : Collectd) : Except GoError (List Plugin) :=
  match collectd.Config.Unmarshal with
  | .error err => .error err
  | .ok staticPlugins => staticLoop env staticPlugins []

/-! ## Config writer -/

/-- The method `writePlugins`: render, then write the file with mode 0644. -/
def writePlugins (env : Env) (collectd : Collectd) (plugins : List Plugin) :
    Option GoError × List Event :=
  let call := Event.render collectd.pluginsDir collectd.templatesDirs env.hostname plugins
  match env.RenderCollectdConf collectd.pluginsDir collectd.templatesDirs env.hostname plugins with
  | .error err => (some err, [call])
  | .ok config =>
    match env.WriteFile collectd.confFile config 0o644 with
    | some err =>
      (some ⟨"failed to write collectd config: " ++ err.msg⟩,
        [call, Event.writeFile collectd.confFile config 0o644])
    | none => (none, [call, Event.writeFile collectd.confFile config 0o644])

/-! ## Lifecycle -/

/-- The method `setState`. -/
def setState (collectd : Collectd) (state : String) : Collectd :=
  { collectd with state := state }

/-- The method `Status`. -/
def Status (collectd : Collectd) : String :=
  collectd.state

/-- The part of `run` before its loop: mark the state `Running`, copy
`confFile` into the local `cConfFile` and initialise the engine from it. -/
def runEnter (collectd : Collectd) : Collectd × List Event :=
  let collectd := setState collectd Running
  let collectd := { collectd with cConfFile := collectd.confFile }
  (collectd,
    [Event.engine EngineCall.plugin_init_ctx,
     Event.engine (EngineCall.cf_read collectd.cConfFile),
     Event.engine EngineCall.init_collectd,
     Event.engine EngineCall.cf_get_default_interval,
     Event.engine EngineCall.plugin_init_all])

/-- The branch `case <-collectd.reloadChan` of the loop of `run`; `cf_read`
gets the copy `cConfFile` taken before the loop, not the current `confFile`. -/
def runOnReload (collectd : Collectd) : Collectd × List Event :=
  let collectd := setState collectd Reloading
  (setState collectd Running,
    [Event.log LogLine.reloadRequested,
     Event.engine EngineCall.plugin_shutdown_for_reload,
     Event.engine EngineCall.plugin_init_ctx,
     Event.engine (EngineCall.cf_read collectd.cConfFile),
     Event.engine EngineCall.plugin_init_for_reload])

/-- The branch `case <-collectd.stopChan` of the loop of `run`, followed by
the deferred `setState(Stopped)`. -/
def runOnStop (collectd : Collectd) : Collectd × List Event :=
  (setState collectd Stopped,
    [Event.log LogLine.stopRequested, Event.engine EngineCall.plugin_shutdown_all])

/-- The signal the `select` of the loop of `run` receives. -/
inductive Signal where
  | stop
  | reload
deriving DecidableEq, Repr

/-- One iteration of the loop of `run`: the engine reads all plugins, then
the loop waits for a signal and takes its branch. The flag tells whether the
loop goes on (`false` after the stop branch, which returns). -/
def runIteration (collectd : Collectd) (signal : Signal) : Collectd × List Event × Bool :=
  match signal with
  | Signal.stop =>
    let r := runOnStop collectd
    (r.1, Event.engine EngineCall.plugin_read_all :: r.2, false)
  | Signal.reload =>
    let r := runOnReload collectd
    (r.1, Event.engine EngineCall.plugin_read_all :: r.2, true)

/-- The method `reload`. When the state is `Running` it marks the state
`Reloading`, sends on `reloadChan` and waits until the state is no longer
`Reloading`; the send is a rendezvous with the loop of `run`, whose reload
branch therefore runs before `reload` returns. -/
def reload (collectd : Collectd) : Collectd × List Event :=
  if collectd.state = Running then
    let collectd := setState collectd Reloading
    let r := runOnReload collectd
    (r.1, Event.reloadChanSend 1 :: r.2)
  else
    (collectd, [])

/-- The block `if changed ...` of `Write`, entered with the trace `tr`
produced so far. -/
def resynchronize (env : Env) (collectd : Collectd) (services : List Instance)
    (tr : List Event) : Outcome :=
  match createPluginsFromServices env collectd services with
  | (.error err, tr1) => ⟨some err, collectd, tr ++ tr1⟩
  | (.ok servicePlugins, tr1) =>
    match getStaticPlugins env collectd with
    | .error err => ⟨some err, collectd, tr ++ tr1⟩
    | .ok plugins =>
      let collectd := { collectd with services := services }
      let plugins := plugins ++ servicePlugins
      match writePlugins env collectd plugins with
      | (some err, tr2) => ⟨some err, collectd, tr ++ tr1 ++ tr2⟩
      | (none, tr2) =>
        let r := reload collectd
        ⟨none, r.1, tr ++ tr1 ++ tr2 ++ r.2⟩

/-- The loop of `Write` that compares the two lists position by position,
`services[i].ID != collectd.services[i].ID`, stopping at the first
difference; it runs when the lengths are equal. -/
def idMismatch : List Instance → List Instance → Bool
  | service :: services, previous :: rest =>
    if service.ID ≠ previous.ID then true else idMismatch services rest
  | _, _ => false

/-- The method `Write`. -/
def Write (env : Env) (collectd : Collectd) (services : List Instance) : Outcome :=
  if collectd.configDirty = true then
    resynchronize env { collectd with configDirty := false } services
      [Event.log LogLine.dirtyFlag]
  else if collectd.services.length ≠ services.length then
    resynchronize env collectd services []
  else if idMismatch services collectd.services = true then
    resynchronize env collectd services []
  else
    ⟨none, collectd, []⟩

/-- The method `Start`. The goroutine it launches is recorded as
`Event.goRun`; its first steps are `runEnter`. -/
def Start (env : Env) (collectd : Collectd) : Outcome :=
  if collectd.state = Running then
    ⟨some ⟨"already running"⟩, collectd, [Event.log LogLine.starting]⟩
  else
    let collectd := { collectd with services := [] }
    match getStaticPlugins env collectd with
    | .error err =>
      ⟨some err, collectd, [Event.log LogLine.starting, Event.log LogLine.configuringStatic]⟩
    | .ok plugins =>
      match writePlugins env collectd plugins with
      | (some err, tr) =>
        ⟨some err, collectd,
          [Event.log LogLine.starting, Event.log LogLine.configuringStatic] ++ tr⟩
      | (none, tr) =>
        ⟨none, collectd,
          [Event.log LogLine.starting, Event.log LogLine.configuringStatic] ++ tr
            ++ [Event.goRun]⟩

/-- The method `Stop`. -/
def Stop (collectd : Collectd) : Collectd × List Event :=
  if collectd.state ≠ Stopped then
    (collectd, [Event.stopChanSend 0])
  else
    (collectd, [])

/-! ## Observations on traces -/

/-- A resynchronization cycle was started: `createPluginsFromServices` was
entered with the list `sis`. -/
def cycleStarted (sis : List Instance) (tr : List Event) : Prop :=
  Event.log (LogLine.configuring sis) ∈ tr

instance (sis : List Instance) (tr : List Event) : Decidable (cycleStarted sis tr) := by
  unfold cycleStarted; infer_instance

/-- Number of calls of `ioutil.WriteFile` in a trace. -/
def configWrites : List Event → Nat
  | [] => 0
  | Event.writeFile _ _ _ :: rest => configWrites rest + 1
  | _ :: rest => configWrites rest

/-- The plugin lists handed to the renderer, in call order. -/
def renderedLists : List Event → List (List Plugin)
  | [] => []
  | Event.render _ _ _ plugins :: rest => plugins :: renderedLists rest
  | _ :: rest => renderedLists rest

/-- No send on `reloadChan` occurs in the trace. -/
def noReloadSignal (tr : List Event) : Prop :=
  ∀ v, Event.reloadChanSend v ∉ tr

/-- The port the spec calls resolved: the private port when the preference
is private, the public port otherwise. -/
def resolvedPort (s : Instance) : Nat :=
  if s.Orchestration.PortPref = PortType.PRIVATE then s.Port.PrivatePort else s.Port.PublicPort

/-- The change rule of the spec for two service lists: the lengths differ,
or some position holds different IDs. -/
def listsDiffer (N P : List Instance) : Prop :=
  N.length ≠ P.length ∨
    ∃ i, ∃ h1 : i < N.length, ∃ h2 : i < P.length, (N.get ⟨i, h1⟩).ID ≠ (P.get ⟨i, h2⟩).ID

/-- The plugin list `createPluginsFromServices` returns (empty if it
returned an error). -/
def servicePlugins (env : Env) (c : Collectd) (sis : List Instance) : List Plugin :=
  match (createPluginsFromServices env c sis).1 with
  | .ok plugins => plugins
  | .error _ => []

/-- The services the spec calls remaining: the type is supported and the
resolved port is not zero. -/
def collectable (env : Env) (s : Instance) : Bool :=
  match env.NewPlugin s.Service.Typ s.Service.Name with
  | .ok _ => decide (resolvedPort s ≠ 0)
  | .error _ => false

/-- Every event of the trace is a log line. -/
def logsOnly (tr : List Event) : Prop :=
  ∀ e ∈ tr, ∃ line, e = Event.log line

/-! ## A concrete configuration

The scenario of the spec: one static plugin `cpu`, one discovered `redis`
service named `cache1` that prefers its private port 6379. -/

/-- Settings with one static plugin declaration. -/
def exampleViper : Viper where
  GetStringSlice := fun key => if key = "templatesdirs" then ["/etc/templates"] else []
  GetString := fun key =>
    if key = "conffile" then "/etc/collectd.conf"
    else if key = "templatesMap" then "/etc/templates.json"
    else ""
  Unmarshal := .ok [("cpu", [("plugin", YamlValue.str "cpu")])]

/-- Collaborators that all succeed; `cpu` and `redis` are the supported
plugin types. -/
def exampleEnv : Env where
  hostname := ""
  NewPlugin := fun typ name =>
    if typ = "cpu" ∨ typ = "redis" then .ok ⟨name, typ, "", 0, "", [typ]⟩
    else .error ⟨"unsupported plugin type"⟩
  LoadPluginConfig := fun _ _ plugin => .ok plugin
  RenderCollectdConf := fun _ _ _ plugins => .ok (String.intercalate "," (plugins.map Plugin.Name))
  WriteFile := fun _ _ _ => none
  ReadFile := fun _ => .ok ""
  jsonUnmarshal := fun _ => .ok (fun _ => none)
  Abs := fun path => .ok path

/-- Collaborators whose renderer fails. -/
def renderFailsEnv : Env :=
  { exampleEnv with RenderCollectdConf := fun _ _ _ _ => .error ⟨"render failed"⟩ }

/-- The monitor as `NewCollectd` leaves it: stopped, no services applied,
flag clear, no loop entered yet. -/
def exampleCollectd : Collectd where
  Config := exampleViper
  state := Stopped
  services := []
  templatesDirs := ["/etc/templates"]
  confFile := "/etc/collectd.conf"
  pluginsDir := ""
  templatesMap := fun _ => none
  configDirty := false
  cConfFile := ""

/-- The discovered `redis` service of the scenario. -/
def exampleService : Instance :=
  ⟨"a", ⟨"redis", "cache1"⟩, ⟨"10.0.0.5", 6379, 0⟩, ⟨[], PortType.PRIVATE⟩⟩

/-- The `redis` service under another identity. -/
def serviceWithID (id : String) : Instance :=
  { exampleService with ID := id }

/-- A service of a type no plugin supports. -/
def unsupportedService : Instance :=
  ⟨"b", ⟨"gopher", "hole"⟩, ⟨"10.0.0.6", 70, 70⟩, ⟨[], PortType.PUBLIC⟩⟩

/-! ## Lemmas on traces -/

theorem logsOnly_nil : logsOnly [] := by
  intro e he
  cases he

theorem logsOnly_append {a b : List Event} (ha : logsOnly a) (hb : logsOnly b) :
    logsOnly (a ++ b) := by
  intro e he
  rcases List.mem_append.mp he with h | h
  · exact ha e h
  · exact hb e h

theorem logsOnly_singleton (line : LogLine) : logsOnly [Event.log line] := by
  intro e he
  exact ⟨line, List.mem_singleton.mp he⟩

theorem configWrites_append (a b : List Event) :
    configWrites (a ++ b) = configWrites a + configWrites b := by
  induction a with
  | nil => simp [configWrites]
  | cons e rest ih =>
    cases e <;> simp [configWrites, ih]
    omega

theorem configWrites_logsOnly {tr : List Event} (h : logsOnly tr) : configWrites tr = 0 := by
  induction tr with
  | nil => rfl
  | cons e rest ih =>
    have hrest : logsOnly rest := fun x hx => h x (List.mem_cons_of_mem _ hx)
    obtain ⟨line, hl⟩ := h e (List.mem_cons_self _ _)
    subst hl
    simpa [configWrites] using ih hrest

theorem renderedLists_append (a b : List Event) :
    renderedLists (a ++ b) = renderedLists a ++ renderedLists b := by
  induction a with
  | nil => simp [renderedLists]
  | cons e rest ih =>
    cases e <;> simp [renderedLists, ih]

theorem renderedLists_logsOnly {tr : List Event} (h : logsOnly tr) : renderedLists tr = [] := by
  induction tr with
  | nil => rfl
  | cons e rest ih =>
    have hrest : logsOnly rest := fun x hx => h x (List.mem_cons_of_mem _ hx)
    obtain ⟨line, hl⟩ := h e (List.mem_cons_self _ _)
    subst hl
    simpa [renderedLists] using ih hrest

theorem noReloadSignal_logsOnly {tr : List Event} (h : logsOnly tr) : noReloadSignal tr := by
  intro v hv
  obtain ⟨line, hl⟩ := h _ hv
  cases hl

theorem noReloadSignal_append {a b : List Event} (ha : noReloadSignal a)
    (hb : noReloadSignal b) : noReloadSignal (a ++ b) := by
  intro v hv
  rcases List.mem_append.mp hv with h | h
  · exact ha v h
  · exact hb v h

/-! ## Lemmas on plugin synthesis -/

theorem serviceIteration_unsupported (env : Env) (c : Collectd) (s : Instance) (e : GoError)
    (h : env.NewPlugin s.Service.Typ s.Service.Name = .error e) :
    serviceIteration env c s = (none, [Event.log (LogLine.unsupported s.Service.Typ)]) := by
  simp [serviceIteration, h]

theorem serviceIteration_supported (env : Env) (c : Collectd) (s : Instance) (p0 : Plugin)
    (h : env.NewPlugin s.Service.Typ s.Service.Name = .ok p0) :
    serviceIteration env c s =
      if resolvedPort s = 0 then (none, [])
      else
        match c.templatesMap s.Service.Name with
        | some templates =>
          (some { addDims s.Orchestration.Dims p0 with
                    Host := s.Port.IP, Port := resolvedPort s, Templates := templates },
            [Event.log (LogLine.reconfiguring s.Service.Name s.Service.Typ),
             Event.log (LogLine.replacing (addDims s.Orchestration.Dims p0).Templates templates
               s.Service.Name)])
        | none =>
          (some { addDims s.Orchestration.Dims p0 with
                    Host := s.Port.IP, Port := resolvedPort s },
            [Event.log (LogLine.reconfiguring s.Service.Name s.Service.Typ)]) := by
  by_cases hp : s.Orchestration.PortPref = PortType.PRIVATE <;>
    simp [serviceIteration, h, resolvedPort, hp]

theorem serviceIteration_logsOnly (env : Env) (c : Collectd) (s : Instance) :
    logsOnly (serviceIteration env c s).2 := by
  cases h : env.NewPlugin s.Service.Typ s.Service.Name with
  | error e =>
    rw [serviceIteration_unsupported env c s e h]
    exact logsOnly_singleton _
  | ok p0 =>
    rw [serviceIteration_supported env c s p0 h]
    by_cases h0 : resolvedPort s = 0
    · simp only [h0, if_true]
      exact logsOnly_nil
    · simp only [h0, if_false]
      cases c.templatesMap s.Service.Name with
      | none => exact logsOnly_singleton _
      | some t => exact logsOnly_append (logsOnly_singleton _) (logsOnly_singleton _)

theorem servicesLoop_plugins (env : Env) (c : Collectd) (sis : List Instance)
    (ps : List Plugin) (tr : List Event) :
    (servicesLoop env c sis ps tr).1
      = ps ++ sis.filterMap (fun s => (serviceIteration env c s).1) := by
  induction sis generalizing ps tr with
  | nil => simp [servicesLoop]
  | cons s rest ih =>
    unfold servicesLoop
    split
    · rename_i plugin logs heq
      simp [ih, List.filterMap_cons, heq]
    · rename_i logs heq
      simp [ih, List.filterMap_cons, heq]

theorem servicesLoop_trace (env : Env) (c : Collectd) (sis : List Instance)
    (ps : List Plugin) (tr : List Event) :
    ∃ t, (servicesLoop env c sis ps tr).2 = tr ++ t ∧ logsOnly t := by
  induction sis generalizing ps tr with
  | nil => exact ⟨[], by simp [servicesLoop], logsOnly_nil⟩
  | cons s rest ih =>
    have hl := serviceIteration_logsOnly env c s
    unfold servicesLoop
    split
    · rename_i plugin logs heq
      rw [heq] at hl
      obtain ⟨t, ht, hlt⟩ := ih (ps ++ [plugin]) (tr ++ logs)
      exact ⟨logs ++ t, by rw [ht, List.append_assoc], logsOnly_append hl hlt⟩
    · rename_i logs heq
      rw [heq] at hl
      obtain ⟨t, ht, hlt⟩ := ih ps (tr ++ logs)
      exact ⟨logs ++ t, by rw [ht, List.append_assoc], logsOnly_append hl hlt⟩

/-- The plugin list returned by `createPluginsFromServices` is the list of
the plugins its iterations append, in input order; the error is `nil`. -/
theorem createPlugins_result (env : Env) (c : Collectd) (sis : List Instance) :
    (createPluginsFromServices env c sis).1
      = .ok (sis.filterMap (fun s => (serviceIteration env c s).1)) := by
  simp [createPluginsFromServices, servicesLoop_plugins]

/-- The trace of `createPluginsFromServices` starts with the line
`Configuring collectd plugins for ...` and holds log lines only. -/
theorem createPlugins_trace (env : Env) (c : Collectd) (sis : List Instance) :
    ∃ t, (createPluginsFromServices env c sis).2 = Event.log (LogLine.configuring sis) :: t
      ∧ logsOnly t := by
  obtain ⟨t, ht, hlt⟩ := servicesLoop_trace env c sis [] [Event.log (LogLine.configuring sis)]
  refine ⟨t ++ [Event.log (LogLine.configured
    (servicesLoop env c sis [] [Event.log (LogLine.configuring sis)]).1)], ?_, ?_⟩
  · simp [createPluginsFromServices, ht]
  · exact logsOnly_append hlt (logsOnly_singleton _)

theorem createPlugins_logsOnly (env : Env) (c : Collectd) (sis : List Instance) :
    logsOnly (createPluginsFromServices env c sis).2 := by
  obtain ⟨t, ht, hlt⟩ := createPlugins_trace env c sis
  rw [ht]
  exact logsOnly_append (logsOnly_singleton _) hlt

/-! ## Lemmas on change detection -/

theorem idMismatch_iff (N P : List Instance) :
    idMismatch N P = true ↔
      ∃ i, ∃ h1 : i < N.length, ∃ h2 : i < P.length,
        (N.get ⟨i, h1⟩).ID ≠ (P.get ⟨i, h2⟩).ID := by
  induction N generalizing P with
  | nil => simp [idMismatch]
  | cons s rest ih =>
    cases P with
    | nil => simp [idMismatch]
    | cons p ps =>
      simp only [idMismatch]
      by_cases hsp : s.ID = p.ID
      · simp only [hsp, ne_eq, not_true_eq_false, if_false, ih ps]
        constructor
        · rintro ⟨i, h1, h2, h⟩
          exact ⟨i + 1, by simpa using h1, by simpa using h2, by simpa using h⟩
        · rintro ⟨i, h1, h2, h⟩
          cases i with
          | zero => simp [hsp] at h
          | succ j =>
            exact ⟨j, by simpa using h1, by simpa using h2, by simpa using h⟩
      · simp only [ne_eq, hsp, not_false_eq_true, if_true, true_iff]
        exact ⟨0, by simp, by simp, by simpa using hsp⟩

theorem idMismatch_self (N : List Instance) : idMismatch N N = false := by
  induction N with
  | nil => rfl
  | cons s rest ih => simp [idMismatch, ih]

/-! ## Lemmas on `writePlugins`, `reload` and the cycle -/

theorem writePlugins_rendered (env : Env) (c : Collectd) (ps : List Plugin) :
    renderedLists (writePlugins env c ps).2 = [ps] := by
  unfold writePlugins
  split
  · rfl
  · split <;> rfl

theorem writePlugins_noReload (env : Env) (c : Collectd) (ps : List Plugin) :
    noReloadSignal (writePlugins env c ps).2 := by
  intro v hv
  unfold writePlugins at hv
  split at hv
  · simp at hv
  · split at hv <;> simp at hv

theorem writePlugins_writes_le (env : Env) (c : Collectd) (ps : List Plugin) :
    configWrites (writePlugins env c ps).2 ≤ 1 := by
  unfold writePlugins
  split
  · simp [configWrites]
  · split <;> simp [configWrites]

theorem writePlugins_writes_ok (env : Env) (c : Collectd) (ps : List Plugin)
    (h : (writePlugins env c ps).1 = none) : configWrites (writePlugins env c ps).2 = 1 := by
  unfold writePlugins at h ⊢
  split at h
  · simp at h
  · split <;> simp [configWrites]

/-- A file write attempted by a failing `writePlugins` is one that failed. -/
theorem writePlugins_error_write (env : Env) (c : Collectd) (ps : List Plugin) (e : GoError)
    (h : (writePlugins env c ps).1 = some e) (path data : String) (perm : Nat)
    (hw : Event.writeFile path data perm ∈ (writePlugins env c ps).2) :
    env.WriteFile path data perm ≠ none := by
  unfold writePlugins at h hw
  cases hr : env.RenderCollectdConf c.pluginsDir c.templatesDirs env.hostname ps with
  | error err => simp [hr] at hw
  | ok config =>
    cases hwf : env.WriteFile c.confFile config 0o644 with
    | none => simp [hr, hwf] at h
    | some err =>
      simp [hr, hwf] at hw
      obtain ⟨h1, h2, h3⟩ := hw
      subst h1 h2 h3
      rw [hwf]
      simp

theorem reload_services (c : Collectd) : (reload c).1.services = c.services := by
  unfold reload
  split <;> rfl

theorem reload_configDirty (c : Collectd) : (reload c).1.configDirty = c.configDirty := by
  unfold reload
  split <;> rfl

theorem reload_writes (c : Collectd) : configWrites (reload c).2 = 0 := by
  unfold reload
  split <;> rfl

theorem reload_rendered (c : Collectd) : renderedLists (reload c).2 = [] := by
  unfold reload
  split <;> rfl

theorem getStaticPlugins_congr (env : Env) (c d : Collectd) (h : c.Config = d.Config) :
    getStaticPlugins env c = getStaticPlugins env d := by
  unfold getStaticPlugins
  rw [h]

theorem createPlugins_congr (env : Env) (c d : Collectd) (h : c.templatesMap = d.templatesMap)
    (sis : List Instance) :
    createPluginsFromServices env c sis = createPluginsFromServices env d sis := by
  have hi : ∀ s, serviceIteration env c s = serviceIteration env d s := by
    intro s
    unfold serviceIteration
    rw [h]
  have hl : ∀ (l : List Instance) ps tr, servicesLoop env c l ps tr = servicesLoop env d l ps tr := by
    intro l
    induction l with
    | nil => intro ps tr; rfl
    | cons s rest ih =>
      intro ps tr
      unfold servicesLoop
      rw [hi s]
      split
      · exact ih _ _
      · exact ih _ _
  unfold createPluginsFromServices
  rw [hl]

theorem resynchronize_static_error (env : Env) (c : Collectd) (N : List Instance)
    (tr : List Event) (e : GoError) (h : getStaticPlugins env c = .error e) :
    resynchronize env c N tr
      = ⟨some e, c, tr ++ (createPluginsFromServices env c N).2⟩ := by
  simp [resynchronize, createPluginsFromServices, h]

theorem resynchronize_write_error (env : Env) (c : Collectd) (N : List Instance)
    (tr : List Event) (S : List Plugin) (e : GoError) (h : getStaticPlugins env c = .ok S)
    (hw : (writePlugins env { c with services := N }
      (S ++ N.filterMap (fun s => (serviceIteration env c s).1))).1 = some e) :
    resynchronize env c N tr
      = ⟨some e, { c with services := N },
          tr ++ (createPluginsFromServices env c N).2
            ++ (writePlugins env { c with services := N }
                (S ++ N.filterMap (fun s => (serviceIteration env c s).1))).2⟩ := by
  simp only [resynchronize, createPluginsFromServices, h, servicesLoop_plugins, List.nil_append]
  split
  · rename_i err tr2 heq
    rw [heq] at hw ⊢
    simp only [Option.some.injEq] at hw
    subst hw
    rfl
  · rename_i tr2 heq
    rw [heq] at hw
    cases hw

theorem resynchronize_write_ok (env : Env) (c : Collectd) (N : List Instance)
    (tr : List Event) (S : List Plugin) (h : getStaticPlugins env c = .ok S)
    (hw : (writePlugins env { c with services := N }
      (S ++ N.filterMap (fun s => (serviceIteration env c s).1))).1 = none) :
    resynchronize env c N tr
      = ⟨none, (reload { c with services := N }).1,
          tr ++ (createPluginsFromServices env c N).2
            ++ (writePlugins env { c with services := N }
                (S ++ N.filterMap (fun s => (serviceIteration env c s).1))).2
            ++ (reload { c with services := N }).2⟩ := by
  simp only [resynchronize, createPluginsFromServices, h, servicesLoop_plugins, List.nil_append]
  split
  · rename_i err tr2 heq
    rw [heq] at hw
    cases hw
  · rename_i tr2 heq
    rw [heq]

theorem Write_of_dirty (env : Env) (c : Collectd) (N : List Instance)
    (h : c.configDirty = true) :
    Write env c N
      = resynchronize env { c with configDirty := false } N [Event.log LogLine.dirtyFlag] := by
  simp [Write, h]

theorem Write_of_changed (env : Env) (c : Collectd) (N : List Instance)
    (h : c.configDirty = false)
    (hd : c.services.length ≠ N.length ∨ idMismatch N c.services = true) :
    Write env c N = resynchronize env c N [] := by
  unfold Write
  rw [if_neg (by simp [h])]
  by_cases hl : c.services.length ≠ N.length
  · rw [if_pos hl]
  · rw [if_neg hl]
    rcases hd with hd | hd
    · exact absurd hd hl
    · rw [if_pos hd]

theorem Write_of_unchanged (env : Env) (c : Collectd) (N : List Instance)
    (h : c.configDirty = false) (hl : c.services.length = N.length)
    (hm : idMismatch N c.services = false) :
    Write env c N = ⟨none, c, []⟩ := by
  simp [Write, h, hl, hm]

theorem resynchronize_trace_shape (env : Env) (c : Collectd) (N : List Instance)
    (tr : List Event) :
    ∃ t, (resynchronize env c N tr).trace = tr ++ (createPluginsFromServices env c N).2 ++ t := by
  cases h : getStaticPlugins env c with
  | error e =>
    rw [resynchronize_static_error env c N tr e h]
    exact ⟨[], by simp⟩
  | ok S =>
    cases hw : (writePlugins env { c with services := N }
        (S ++ N.filterMap (fun s => (serviceIteration env c s).1))).1 with
    | none =>
      rw [resynchronize_write_ok env c N tr S h hw]
      exact ⟨(writePlugins env { c with services := N }
        (S ++ N.filterMap (fun s => (serviceIteration env c s).1))).2
          ++ (reload { c with services := N }).2, by simp only [List.append_assoc]⟩
    | some e =>
      rw [resynchronize_write_error env c N tr S e h hw]
      exact ⟨_, rfl⟩

theorem resynchronize_cycleStarted (env : Env) (c : Collectd) (N : List Instance)
    (tr : List Event) : cycleStarted N (resynchronize env c N tr).trace := by
  obtain ⟨t, ht⟩ := resynchronize_trace_shape env c N tr
  obtain ⟨t1, ht1, -⟩ := createPlugins_trace env c N
  unfold cycleStarted
  rw [ht, ht1]
  simp

/-- The two ways `Write` can go: no change detected, or the cycle entered
with the flag already cleared. -/
theorem Write_cases (env : Env) (c : Collectd) (N : List Instance) :
    (Write env c N = ⟨none, c, []⟩ ∧ c.configDirty = false
        ∧ c.services.length = N.length ∧ idMismatch N c.services = false)
    ∨ (∃ c0 tr, Write env c N = resynchronize env c0 N tr ∧ logsOnly tr
        ∧ c0.configDirty = false ∧ c0.services = c.services ∧ c0.state = c.state
        ∧ c0.Config = c.Config ∧ c0.templatesMap = c.templatesMap) := by
  by_cases hd : c.configDirty = true
  · right
    exact ⟨{ c with configDirty := false }, [Event.log LogLine.dirtyFlag],
      Write_of_dirty env c N hd, logsOnly_singleton _, rfl, rfl, rfl, rfl, rfl⟩
  · have hd0 : c.configDirty = false := by simpa using hd
    by_cases hl : c.services.length = N.length
    · cases hm : idMismatch N c.services with
      | false => exact Or.inl ⟨Write_of_unchanged env c N hd0 hl hm, hd0, hl, rfl⟩
      | true =>
        right
        exact ⟨c, [], Write_of_changed env c N hd0 (Or.inr hm), logsOnly_nil, hd0, rfl, rfl,
          rfl, rfl⟩
    · right
      exact ⟨c, [], Write_of_changed env c N hd0 (Or.inl hl), logsOnly_nil, hd0, rfl, rfl,
        rfl, rfl⟩

/-- What a cycle leaves behind, by the step it reaches. -/
theorem resynchronize_summary (env : Env) (c : Collectd) (N : List Instance)
    (tr : List Event) (htr : logsOnly tr) :
    configWrites (resynchronize env c N tr).trace ≤ 1
    ∧ (0 < configWrites (resynchronize env c N tr).trace →
        (resynchronize env c N tr).collectd.services = N)
    ∧ ((resynchronize env c N tr).err = none →
        configWrites (resynchronize env c N tr).trace = 1
          ∧ (resynchronize env c N tr).collectd.services = N)
    ∧ (resynchronize env c N tr).collectd.configDirty = c.configDirty := by
  have hcp := configWrites_logsOnly (createPlugins_logsOnly env c N)
  have htr0 := configWrites_logsOnly htr
  cases h : getStaticPlugins env c with
  | error e =>
    rw [resynchronize_static_error env c N tr e h]
    simp [configWrites_append, hcp, htr0]
  | ok S =>
    cases hw : (writePlugins env { c with services := N }
        (S ++ N.filterMap (fun s => (serviceIteration env c s).1))).1 with
    | none =>
      rw [resynchronize_write_ok env c N tr S h hw]
      have h1 := writePlugins_writes_ok _ _ _ hw
      simp [configWrites_append, hcp, htr0, h1, reload_writes, reload_services,
        reload_configDirty]
    | some e =>
      rw [resynchronize_write_error env c N tr S e h hw]
      have h1 := writePlugins_writes_le env { c with services := N }
        (S ++ N.filterMap (fun s => (serviceIteration env c s).1))
      simp [configWrites_append, hcp, htr0, h1]

theorem Write_configDirty (env : Env) (c : Collectd) (N : List Instance) :
    (Write env c N).collectd.configDirty = false := by
  rcases Write_cases env c N with ⟨h, hd, -, -⟩ | ⟨c0, tr, h, htr, hd, -⟩
  · rw [h]
    exact hd
  · rw [h, (resynchronize_summary env c0 N tr htr).2.2.2]
    exact hd

theorem Write_writes_le (env : Env) (c : Collectd) (N : List Instance) :
    configWrites (Write env c N).trace ≤ 1 := by
  rcases Write_cases env c N with ⟨h, -⟩ | ⟨c0, tr, h, htr, -⟩
  · rw [h]
    simp [configWrites]
  · rw [h]
    exact (resynchronize_summary env c0 N tr htr).1

/-- A `Write` of the list that is already applied, with the flag clear, does
nothing. -/
theorem Write_applied (env : Env) (c : Collectd) (N : List Instance)
    (hd : c.configDirty = false) (hs : c.services = N) : Write env c N = ⟨none, c, []⟩ := by
  apply Write_of_unchanged env c N hd
  · rw [hs]
  · rw [hs]
    exact idMismatch_self N

/-! ## Change detection -/

theorem Write_of_no_difference (env : Env) (c : Collectd) (N : List Instance)
    (hn : ¬ (c.configDirty = true ∨ listsDiffer N c.services)) :
    Write env c N = ⟨none, c, []⟩ := by
  unfold listsDiffer at hn
  rw [not_or, not_or] at hn
  obtain ⟨hd, hl, hm⟩ := hn
  apply Write_of_unchanged
  · simpa using hd
  · exact (not_not.mp hl).symm
  · rw [← idMismatch_iff] at hm
    simpa using hm

theorem Write_of_difference (env : Env) (c : Collectd) (N : List Instance)
    (h : c.configDirty = true ∨ listsDiffer N c.services) :
    cycleStarted N (Write env c N).trace := by
  by_cases hd : c.configDirty = true
  · rw [Write_of_dirty env c N hd]
    exact resynchronize_cycleStarted _ _ _ _
  · rcases h with h | h | h
    · exact absurd h hd
    · rw [Write_of_changed env c N (by simpa using hd) (Or.inl (Ne.symm h))]
      exact resynchronize_cycleStarted _ _ _ _
    · rw [Write_of_changed env c N (by simpa using hd)
        (Or.inr ((idMismatch_iff N c.services).mpr h))]
      exact resynchronize_cycleStarted _ _ _ _

theorem Write_cycleStarted_iff (env : Env) (c : Collectd) (N : List Instance) :
    cycleStarted N (Write env c N).trace ↔ (c.configDirty = true ∨ listsDiffer N c.services) := by
  constructor
  · intro hc
    by_contra hn
    rw [Write_of_no_difference env c N hn] at hc
    simp [cycleStarted] at hc
  · exact Write_of_difference env c N

/-- C1: `Write` starts a resynchronization cycle exactly when the dirty flag
is set, or the new list and the last-applied list differ in length, or some
position holds different IDs in the two lists; otherwise it returns `nil`
with an empty trace (nothing synthesized, rendered, written or signalled) and
an unchanged state. The comparison is positional: swapping two services with
different IDs is reported as a change. -/
theorem write_change_detection (env : Env) (c : Collectd) (N : List Instance) :
    (cycleStarted N (Write env c N).trace ↔
      (c.configDirty = true ∨ N.length ≠ c.services.length ∨
        ∃ i, ∃ h1 : i < N.length, ∃ h2 : i < c.services.length,
          (N.get ⟨i, h1⟩).ID ≠ (c.services.get ⟨i, h2⟩).ID))
    ∧ (¬ (c.configDirty = true ∨ N.length ≠ c.services.length ∨
        ∃ i, ∃ h1 : i < N.length, ∃ h2 : i < c.services.length,
          (N.get ⟨i, h1⟩).ID ≠ (c.services.get ⟨i, h2⟩).ID) →
        (Write env c N).err = none ∧ (Write env c N).trace = []
          ∧ (Write env c N).collectd = c)
    ∧ (∀ a b : Instance, a.ID ≠ b.ID → c.services = [a, b] → N = [b, a] →
        cycleStarted N (Write env c N).trace) := by
  refine ⟨Write_cycleStarted_iff env c N, ?_, ?_⟩
  · intro hn
    rw [Write_of_no_difference env c N hn]
    exact ⟨rfl, rfl, rfl⟩
  · intro a b hab hs hN
    apply Write_of_difference
    right; right
    subst hN
    rw [hs]
    exact ⟨0, by simp, by simp, by simpa using Ne.symm hab⟩

/-- C1 at a concrete input: with IDs 1, 2 applied and 2, 1 offered, a cycle
starts; with the same list offered again, nothing happens. -/
theorem write_change_detection_witness :
    cycleStarted [serviceWithID "2", serviceWithID "1"]
        (Write exampleEnv
          { exampleCollectd with services := [serviceWithID "1", serviceWithID "2"] }
          [serviceWithID "2", serviceWithID "1"]).trace
    ∧ (Write exampleEnv
          { exampleCollectd with services := [serviceWithID "1", serviceWithID "2"] }
          [serviceWithID "1", serviceWithID "2"]).trace = [] :=
  ⟨(write_change_detection exampleEnv
        { exampleCollectd with services := [serviceWithID "1", serviceWithID "2"] }
        [serviceWithID "2", serviceWithID "1"]).2.2
      (serviceWithID "1") (serviceWithID "2") (by decide) rfl rfl,
    ((write_change_detection exampleEnv
        { exampleCollectd with services := [serviceWithID "1", serviceWithID "2"] }
        [serviceWithID "1", serviceWithID "2"]).2.1
      (by
        rintro (h | h | h)
        · exact absurd h (by decide)
        · exact absurd h (by decide)
        · exact absurd ((idMismatch_iff _ _).mpr h) (by decide))).2.1⟩

/-! ## Idempotence -/

/-- C2 (as stated, refuted): when the list offered is the one already
applied and the flag is clear, two consecutive calls of `Write` perform no
config write at all, not exactly one. -/
theorem write_twice_no_write :
    configWrites
        (Write exampleEnv { exampleCollectd with services := [exampleService] }
          [exampleService]).trace
      + configWrites
        (Write exampleEnv
          (Write exampleEnv { exampleCollectd with services := [exampleService] }
            [exampleService]).collectd
          [exampleService]).trace
      = 0 := by
  decide

/-- C2 (amended): two consecutive calls `Write(L); Write(L)` with no settings
reload between them perform at most one config write, never two. When the
first call detects no change, neither call writes. When the first call
starts a cycle and returns `nil`, exactly one write happens. Whenever the
first call returns `nil` or has written, the second call detects no change:
it returns `nil` with an empty trace. -/
theorem write_twice_at_most_one_write (env1 env2 : Env) (c : Collectd) (L : List Instance) :
    configWrites (Write env1 c L).trace
        + configWrites (Write env2 (Write env1 c L).collectd L).trace ≤ 1
    ∧ (¬ cycleStarted L (Write env1 c L).trace →
        configWrites (Write env1 c L).trace
          + configWrites (Write env2 (Write env1 c L).collectd L).trace = 0)
    ∧ (cycleStarted L (Write env1 c L).trace → (Write env1 c L).err = none →
        configWrites (Write env1 c L).trace
          + configWrites (Write env2 (Write env1 c L).collectd L).trace = 1)
    ∧ ((Write env1 c L).err = none ∨ 0 < configWrites (Write env1 c L).trace →
        (Write env2 (Write env1 c L).collectd L).err = none
          ∧ (Write env2 (Write env1 c L).collectd L).trace = []) := by
  have hdirty := Write_configDirty env1 c L
  have hle2 := Write_writes_le env2 (Write env1 c L).collectd L
  rcases Write_cases env1 c L with ⟨h, hd, hl, hm⟩ | ⟨c0, tr, h, htr, hd, -⟩
  · have h2 : Write env2 c L = ⟨none, c, []⟩ := Write_of_unchanged env2 c L hd hl hm
    rw [h]
    simp only [h2]
    simp [configWrites, cycleStarted]
  · obtain ⟨s1, s2, s3, -⟩ := resynchronize_summary env1 c0 L tr htr
    rw [h] at hdirty hle2 ⊢
    have happlied : (resynchronize env1 c0 L tr).collectd.services = L →
        Write env2 (resynchronize env1 c0 L tr).collectd L
          = ⟨none, (resynchronize env1 c0 L tr).collectd, []⟩ :=
      fun hs => Write_applied env2 _ L hdirty hs
    refine ⟨?_, ?_, ?_, ?_⟩
    · by_cases hpos : 0 < configWrites (resynchronize env1 c0 L tr).trace
      · rw [happlied (s2 hpos)]
        simpa [configWrites] using s1
      · omega
    · intro hn
      exact absurd (resynchronize_cycleStarted env1 c0 L tr) hn
    · intro _ herr
      rw [happlied (s3 herr).2, (s3 herr).1]
      rfl
    · intro hor
      have hs : (resynchronize env1 c0 L tr).collectd.services = L := by
        rcases hor with herr | hpos
        · exact (s3 herr).2
        · exact s2 hpos
      rw [happlied hs]
      exact ⟨rfl, rfl⟩

/-- C2 at a concrete input: the first `Write` of the `redis` service on a
fresh monitor writes the file once and the repeated call writes nothing. -/
theorem write_twice_at_most_one_write_witness :
    configWrites (Write exampleEnv exampleCollectd [exampleService]).trace
      + configWrites
          (Write exampleEnv (Write exampleEnv exampleCollectd [exampleService]).collectd
            [exampleService]).trace = 1 :=
  (write_twice_at_most_one_write exampleEnv exampleEnv exampleCollectd [exampleService]).2.2.1
    (by decide) (by decide)

/-! ## Dirty flag -/

theorem Reload_sets_dirty (env : Env) (c : Collectd) (cfg : Viper)
    (h : (Reload env c cfg).err = none) : (Reload env c cfg).collectd.configDirty = true := by
  unfold Reload at h ⊢
  split
  · rename_i heq
    rw [heq] at h
    cases h
  · rfl

theorem resynchronize_static_ok_services (env : Env) (c : Collectd) (N : List Instance)
    (tr : List Event) (S : List Plugin) (h : getStaticPlugins env c = .ok S) :
    (resynchronize env c N tr).collectd.services = N := by
  cases hw : (writePlugins env { c with services := N }
      (S ++ N.filterMap (fun s => (serviceIteration env c s).1))).1 with
  | none =>
    rw [resynchronize_write_ok env c N tr S h hw]
    exact reload_services _
  | some e =>
    rw [resynchronize_write_error env c N tr S e h hw]

/-- C3: a successful `Reload` sets the dirty flag; the next `Write` then
starts a cycle for every service list and logs that the flag caused it, and
the flag is clear when that `Write` returns. A further `Write` of the same
list finds the flag clear: whether it starts a cycle depends on the lists
alone, and it starts none (empty trace) once the first cycle got past the
static plugins and recorded the list. -/
theorem reload_dirty_forces_one_cycle (env : Env) (c : Collectd) (cfg : Viper)
    (h : (Reload env c cfg).err = none) :
    (Reload env c cfg).collectd.configDirty = true
    ∧ ∀ (env1 env2 : Env) (L : List Instance),
        cycleStarted L (Write env1 (Reload env c cfg).collectd L).trace
        ∧ Event.log LogLine.dirtyFlag ∈ (Write env1 (Reload env c cfg).collectd L).trace
        ∧ (Write env1 (Reload env c cfg).collectd L).collectd.configDirty = false
        ∧ (cycleStarted L
              (Write env2 (Write env1 (Reload env c cfg).collectd L).collectd L).trace ↔
            listsDiffer L (Write env1 (Reload env c cfg).collectd L).collectd.services)
        ∧ ((∃ S, getStaticPlugins env1 (Reload env c cfg).collectd = .ok S) →
            (Write env2 (Write env1 (Reload env c cfg).collectd L).collectd L).err = none
            ∧ (Write env2 (Write env1 (Reload env c cfg).collectd L).collectd L).trace = []) := by
  have hd := Reload_sets_dirty env c cfg h
  refine ⟨hd, ?_⟩
  intro env1 env2 L
  have hclear := Write_configDirty env1 (Reload env c cfg).collectd L
  refine ⟨Write_of_difference env1 _ L (Or.inl hd), ?_, hclear, ?_, ?_⟩
  · rw [Write_of_dirty env1 _ L hd]
    obtain ⟨t, ht⟩ := resynchronize_trace_shape env1
      { (Reload env c cfg).collectd with configDirty := false } L [Event.log LogLine.dirtyFlag]
    rw [ht]
    simp
  · rw [Write_cycleStarted_iff, hclear]
    simp
  · rintro ⟨S, hS⟩
    have hs : (Write env1 (Reload env c cfg).collectd L).collectd.services = L := by
      rw [Write_of_dirty env1 _ L hd]
      exact resynchronize_static_ok_services env1 _ L _ S
        ((getStaticPlugins_congr env1 _ _ rfl).trans hS)
    rw [Write_applied env2 _ L hclear hs]
    exact ⟨rfl, rfl⟩

/-- C3 at a concrete input: reloading the example settings succeeds, and the
next `Write` of the list already applied (the empty list) starts a cycle. -/
theorem reload_dirty_forces_one_cycle_witness :
    (Reload exampleEnv exampleCollectd exampleViper).err = none
    ∧ cycleStarted []
        (Write exampleEnv (Reload exampleEnv exampleCollectd exampleViper).collectd []).trace :=
  ⟨by decide,
    ((reload_dirty_forces_one_cycle exampleEnv exampleCollectd exampleViper (by decide)).2
      exampleEnv exampleEnv []).1⟩

/-! ## Failure of a cycle -/

theorem logsOnly_no_write {tr : List Event} (h : logsOnly tr) (path data : String)
    (perm : Nat) : Event.writeFile path data perm ∉ tr := by
  intro hw
  obtain ⟨line, hl⟩ := h _ hw
  cases hl

/-- C4 (the code at the failing input): on a fresh monitor with no service
applied, a `Write` of the `redis` service whose render step fails returns the
render error, yet the last-applied service list is already the new list and
not the empty list of before the call; a repeated `Write` of the same list
with a working renderer then detects no change, returns `nil` and writes
nothing, so the list recorded as applied never reaches the config file. -/
theorem write_render_error_replaces_list :
    (Write renderFailsEnv exampleCollectd [exampleService]).err = some ⟨"render failed"⟩
    ∧ exampleCollectd.services = []
    ∧ (Write renderFailsEnv exampleCollectd [exampleService]).collectd.services
        = [exampleService]
    ∧ configWrites (Write renderFailsEnv exampleCollectd [exampleService]).trace = 0
    ∧ (Write exampleEnv (Write renderFailsEnv exampleCollectd [exampleService]).collectd
        [exampleService]).err = none
    ∧ (Write exampleEnv (Write renderFailsEnv exampleCollectd [exampleService]).collectd
        [exampleService]).trace = [] := by
  decide

/-- What holds of every `Write` that returns an error: the error is the one
returned by `getStaticPlugins` or by `writePlugins` on the merged list, no
send on `reloadChan` happens, the lifecycle state is the one before the call
and every file write the call attempted has failed; on the exit after
`getStaticPlugins` the service list is the one before the call. -/
theorem Write_error_exits (env : Env) (c : Collectd) (N : List Instance) (e : GoError)
    (h : (Write env c N).err = some e) :
    ((getStaticPlugins env c = .error e ∧ (Write env c N).collectd.services = c.services)
      ∨ (∃ S D, getStaticPlugins env c = .ok S
          ∧ (createPluginsFromServices env c N).1 = .ok D
          ∧ (writePlugins env (Write env c N).collectd (S ++ D)).1 = some e))
    ∧ noReloadSignal (Write env c N).trace
    ∧ (Write env c N).collectd.state = c.state
    ∧ (∀ path data perm, Event.writeFile path data perm ∈ (Write env c N).trace →
        env.WriteFile path data perm ≠ none) := by
  rcases Write_cases env c N with ⟨h0, -⟩ | ⟨c0, tr, h0, htr, -, hserv, hstate, hcfg, htm⟩
  · rw [h0] at h
    cases h
  · have hcpl := createPlugins_logsOnly env c0 N
    rw [h0] at h ⊢
    cases hS : getStaticPlugins env c0 with
    | error e1 =>
      rw [resynchronize_static_error env c0 N tr e1 hS] at h ⊢
      simp only [Option.some.injEq] at h
      subst h
      refine ⟨Or.inl ⟨?_, hserv⟩, ?_, hstate, ?_⟩
      · rw [← hS]
        exact getStaticPlugins_congr env c c0 hcfg.symm
      · exact noReloadSignal_logsOnly (logsOnly_append htr hcpl)
      · intro path data perm hw
        exact absurd hw (logsOnly_no_write (logsOnly_append htr hcpl) path data perm)
    | ok S =>
      cases hw : (writePlugins env { c0 with services := N }
          (S ++ N.filterMap (fun s => (serviceIteration env c0 s).1))).1 with
      | none =>
        rw [resynchronize_write_ok env c0 N tr S hS hw] at h
        cases h
      | some e1 =>
        rw [resynchronize_write_error env c0 N tr S e1 hS hw] at h ⊢
        simp only [Option.some.injEq] at h
        subst h
        refine ⟨Or.inr ⟨S, N.filterMap (fun s => (serviceIteration env c0 s).1), ?_, ?_, hw⟩,
          ?_, hstate, ?_⟩
        · rw [← hS]
          exact getStaticPlugins_congr env c c0 hcfg.symm
        · rw [createPlugins_congr env c c0 htm.symm]
          exact createPlugins_result env c0 N
        · exact noReloadSignal_append
            (noReloadSignal_logsOnly (logsOnly_append htr hcpl)) (writePlugins_noReload _ _ _)
        · intro path data perm hmem
          rcases List.mem_append.mp hmem with hm | hm
          · exact absurd hm (logsOnly_no_write (logsOnly_append htr hcpl) path data perm)
          · exact writePlugins_error_write env _ _ e1 hw path data perm hm

/-! ## Start guard -/

/-- C5 (the code at the failing input): from `Running`, `Start` returns the
error `already running` without writing the config or launching the loop; but
from `Reloading` it returns `nil`, having rewritten the config file and
launched a second supervision loop. -/
theorem start_guard_misses_reloading :
    (∀ (env : Env) (c : Collectd), c.state = Running →
        (Start env c).err = some ⟨"already running"⟩
        ∧ configWrites (Start env c).trace = 0
        ∧ Event.goRun ∉ (Start env c).trace)
    ∧ (Start exampleEnv { exampleCollectd with state := Reloading }).err = none
    ∧ configWrites (Start exampleEnv { exampleCollectd with state := Reloading }).trace = 1
    ∧ Event.goRun ∈ (Start exampleEnv { exampleCollectd with state := Reloading }).trace := by
  refine ⟨?_, by decide, by decide, by decide⟩
  intro env c hc
  simp [Start, hc, configWrites]

/-! ## Merge order -/

/-- C6: in a resynchronization cycle with `getStaticPlugins` returning `S`
and `createPluginsFromServices` returning `D`, the renderer is called once,
with the plugin list `S ++ D`. -/
theorem write_merge_order (env : Env) (c : Collectd) (N : List Instance)
    (S D : List Plugin) (hc : cycleStarted N (Write env c N).trace)
    (hS : getStaticPlugins env c = .ok S)
    (hD : (createPluginsFromServices env c N).1 = .ok D) :
    renderedLists (Write env c N).trace = [S ++ D] := by
  rcases Write_cases env c N with ⟨h0, -⟩ | ⟨c0, tr, h0, htr, -, -, -, hcfg, htm⟩
  · rw [h0] at hc
    simp [cycleStarted] at hc
  · have hS0 : getStaticPlugins env c0 = .ok S := by
      rw [← hS]
      exact getStaticPlugins_congr env c0 c hcfg
    have hD0 : N.filterMap (fun s => (serviceIteration env c0 s).1) = D := by
      have := createPlugins_result env c0 N
      rw [createPlugins_congr env c0 c htm, hD] at this
      exact (Except.ok.inj this).symm
    have hcp := renderedLists_logsOnly (createPlugins_logsOnly env c0 N)
    have htr0 := renderedLists_logsOnly htr
    rw [h0]
    cases hw : (writePlugins env { c0 with services := N }
        (S ++ N.filterMap (fun s => (serviceIteration env c0 s).1))).1 with
    | none =>
      rw [resynchronize_write_ok env c0 N tr S hS0 hw]
      simp [renderedLists_append, hcp, htr0, writePlugins_rendered, reload_rendered, hD0]
    | some e =>
      rw [resynchronize_write_error env c0 N tr S e hS0 hw]
      simp [renderedLists_append, hcp, htr0, writePlugins_rendered, hD0]

/-- C6 at a concrete input, the scenario of the spec: the static `cpu` plugin
comes first, then the `redis` plugin named `cache1` with port 6379. -/
theorem write_merge_order_witness :
    renderedLists (Write exampleEnv exampleCollectd [exampleService]).trace
      = [[⟨"cpu", "cpu", "", 0, "", ["cpu"]⟩,
          ⟨"cache1", "redis", "10.0.0.5", 6379, "", ["redis"]⟩]] :=
  write_merge_order exampleEnv exampleCollectd [exampleService]
    [⟨"cpu", "cpu", "", 0, "", ["cpu"]⟩]
    [⟨"cache1", "redis", "10.0.0.5", 6379, "", ["redis"]⟩] (by decide) rfl rfl

/-! ## Service-derived plugins -/

theorem servicePlugins_eq (env : Env) (c : Collectd) (sis : List Instance) :
    servicePlugins env c sis = sis.filterMap (fun s => (serviceIteration env c s).1) := by
  unfold servicePlugins
  rw [createPlugins_result]

theorem servicePlugins_split (env : Env) (c : Collectd) (pre post : List Instance)
    (s : Instance) :
    servicePlugins env c (pre ++ s :: post)
      = servicePlugins env c pre ++ servicePlugins env c [s] ++ servicePlugins env c post := by
  simp only [servicePlugins_eq, List.filterMap_append, List.filterMap_cons, List.filterMap_nil]
  cases (serviceIteration env c s).1 <;> simp

theorem addDims_fields (dims : List (String × String)) (p : Plugin) :
    (addDims dims p).Templates = p.Templates ∧ (addDims dims p).Name = p.Name
      ∧ (addDims dims p).Typ = p.Typ := by
  induction dims generalizing p with
  | nil => exact ⟨rfl, rfl, rfl⟩
  | cons kv rest ih =>
    obtain ⟨key, val⟩ := kv
    unfold addDims
    by_cases hl : p.Dims.length > 0
    · simp only [hl, if_true]
      exact ih _
    · simp only [hl, if_false]
      exact ih _

theorem servicePlugins_unsupported (env : Env) (c : Collectd) (s : Instance) (e : GoError)
    (h : env.NewPlugin s.Service.Typ s.Service.Name = .error e) :
    servicePlugins env c [s] = [] := by
  simp [servicePlugins_eq, serviceIteration_unsupported env c s e h]

theorem servicePlugins_unroutable (env : Env) (c : Collectd) (s : Instance) (p0 : Plugin)
    (h : env.NewPlugin s.Service.Typ s.Service.Name = .ok p0) (h0 : resolvedPort s = 0) :
    servicePlugins env c [s] = [] := by
  simp [servicePlugins_eq, serviceIteration_supported env c s p0 h, h0]

theorem servicePlugins_emitted (env : Env) (c : Collectd) (s : Instance) (p0 : Plugin)
    (h : env.NewPlugin s.Service.Typ s.Service.Name = .ok p0) (h0 : resolvedPort s ≠ 0) :
    ∃ p, servicePlugins env c [s] = [p] ∧ p.Port = resolvedPort s ∧ p.Host = s.Port.IP
      ∧ (∀ templates, c.templatesMap s.Service.Name = some templates →
          p.Templates = templates)
      ∧ (c.templatesMap s.Service.Name = none → p.Templates = p0.Templates) := by
  cases ht : c.templatesMap s.Service.Name with
  | none =>
    refine ⟨{ addDims s.Orchestration.Dims p0 with
                Host := s.Port.IP, Port := resolvedPort s }, ?_, rfl, rfl, ?_, ?_⟩
    · simp [servicePlugins_eq, serviceIteration_supported env c s p0 h, h0, ht]
    · intro templates hsome
      cases hsome
    · intro _
      exact (addDims_fields _ _).1
  | some t =>
    refine ⟨{ addDims s.Orchestration.Dims p0 with
                Host := s.Port.IP, Port := resolvedPort s, Templates := t }, ?_, rfl, rfl, ?_, ?_⟩
    · simp [servicePlugins_eq, serviceIteration_supported env c s p0 h, h0, ht]
    · intro templates hsome
      cases hsome
      rfl
    · intro hnone
      cases hnone

theorem servicePlugins_single_length (env : Env) (c : Collectd) (s : Instance) :
    (servicePlugins env c [s]).length = if collectable env s = true then 1 else 0 := by
  unfold collectable
  cases h : env.NewPlugin s.Service.Typ s.Service.Name with
  | error e => simp [servicePlugins_unsupported env c s e h]
  | ok p0 =>
    by_cases h0 : resolvedPort s = 0
    · simp [servicePlugins_unroutable env c s p0 h h0, h0]
    · obtain ⟨p, hp, -⟩ := servicePlugins_emitted env c s p0 h h0
      simp [hp, h0]

theorem servicePlugins_port_ne_zero (env : Env) (c : Collectd) (sis : List Instance)
    (p : Plugin) (hp : p ∈ servicePlugins env c sis) : p.Port ≠ 0 := by
  rw [servicePlugins_eq, List.mem_filterMap] at hp
  obtain ⟨s, -, hs⟩ := hp
  cases h : env.NewPlugin s.Service.Typ s.Service.Name with
  | error e =>
    rw [serviceIteration_unsupported env c s e h] at hs
    cases hs
  | ok p0 =>
    by_cases h0 : resolvedPort s = 0
    · have := servicePlugins_unroutable env c s p0 h h0
      simp [servicePlugins_eq, hs] at this
    · obtain ⟨q, hq, hport, -⟩ := servicePlugins_emitted env c s p0 h h0
      simp [servicePlugins_eq, hs] at hq
      subst hq
      rw [hport]
      exact h0

/-- C7: for a service of a supported type, the resolved port is the private
port when the preference is `PRIVATE` and the public port otherwise; inside
any service list, the service adds nothing to the output when the resolved
port is 0 and otherwise adds, at its position, one plugin whose `Port` is the
resolved port and whose `Host` is the service IP. Every plugin of every
output list has a nonzero port. -/
theorem service_port_selection (env : Env) (c : Collectd) (pre post : List Instance)
    (s : Instance) (p0 : Plugin) (h : env.NewPlugin s.Service.Typ s.Service.Name = .ok p0) :
    (s.Orchestration.PortPref = PortType.PRIVATE → resolvedPort s = s.Port.PrivatePort)
    ∧ (s.Orchestration.PortPref ≠ PortType.PRIVATE → resolvedPort s = s.Port.PublicPort)
    ∧ (resolvedPort s = 0 →
        servicePlugins env c (pre ++ s :: post)
          = servicePlugins env c pre ++ servicePlugins env c post)
    ∧ (resolvedPort s ≠ 0 →
        ∃ p, p.Port = resolvedPort s ∧ p.Host = s.Port.IP
          ∧ servicePlugins env c (pre ++ s :: post)
              = servicePlugins env c pre ++ p :: servicePlugins env c post)
    ∧ (∀ sis, ∀ p ∈ servicePlugins env c sis, p.Port ≠ 0) := by
  refine ⟨?_, ?_, ?_, ?_, ?_⟩
  · intro hp
    simp [resolvedPort, hp]
  · intro hp
    simp [resolvedPort, hp]
  · intro h0
    rw [servicePlugins_split, servicePlugins_unroutable env c s p0 h h0]
    simp
  · intro h0
    obtain ⟨p, hp, hport, hhost, -⟩ := servicePlugins_emitted env c s p0 h h0
    refine ⟨p, hport, hhost, ?_⟩
    rw [servicePlugins_split, hp]
    simp
  · intro sis p hp
    exact servicePlugins_port_ne_zero env c sis p hp

/-- C7 at a concrete input: the `redis` service prefers its private port
6379 and yields one plugin with that port and its IP as host. -/
theorem service_port_selection_witness :
    exampleEnv.NewPlugin "redis" "cache1" = .ok ⟨"cache1", "redis", "", 0, "", ["redis"]⟩
    ∧ ∃ p : Plugin, p.Port = 6379 ∧ p.Host = "10.0.0.5"
        ∧ servicePlugins exampleEnv exampleCollectd ([] ++ exampleService :: [])
            = servicePlugins exampleEnv exampleCollectd [] ++ p
                :: servicePlugins exampleEnv exampleCollectd [] :=
  ⟨rfl,
    (service_port_selection exampleEnv exampleCollectd [] [] exampleService
      ⟨"cache1", "redis", "", 0, "", ["redis"]⟩ rfl).2.2.2.1 (by decide)⟩

/-- C8: for a service that yields a plugin (supported type, nonzero resolved
port), inside any service list: if the template map has an entry for the
service name, the plugin's template list is that entry; if it has none, the
template list is the one `config.NewPlugin` produced for the type. -/
theorem service_template_override (env : Env) (c : Collectd) (pre post : List Instance)
    (s : Instance) (p0 : Plugin) (h : env.NewPlugin s.Service.Typ s.Service.Name = .ok p0)
    (h0 : resolvedPort s ≠ 0) :
    ∃ p, servicePlugins env c (pre ++ s :: post)
          = servicePlugins env c pre ++ p :: servicePlugins env c post
      ∧ (∀ templates, c.templatesMap s.Service.Name = some templates →
          p.Templates = templates)
      ∧ (c.templatesMap s.Service.Name = none → p.Templates = p0.Templates) := by
  obtain ⟨p, hp, -, -, hsome, hnone⟩ := servicePlugins_emitted env c s p0 h h0
  refine ⟨p, ?_, hsome, hnone⟩
  rw [servicePlugins_split, hp]
  simp

/-- C8 at a concrete input: with the entry `cache1 -> [custom]` in the
template map the `redis` plugin carries exactly `[custom]`, not `[redis]`. -/
theorem service_template_override_witness :
    servicePlugins exampleEnv
        { exampleCollectd with
            templatesMap := fun name => if name = "cache1" then some ["custom"] else none }
        [exampleService]
      = [⟨"cache1", "redis", "10.0.0.5", 6379, "", ["custom"]⟩]
    ∧ ∃ p : Plugin,
        servicePlugins exampleEnv
            { exampleCollectd with
                templatesMap := fun name => if name = "cache1" then some ["custom"] else none }
            ([] ++ exampleService :: [])
          = servicePlugins exampleEnv
              { exampleCollectd with
                  templatesMap := fun name => if name = "cache1" then some ["custom"] else none }
              [] ++ p
              :: servicePlugins exampleEnv
                  { exampleCollectd with
                      templatesMap := fun name =>
                        if name = "cache1" then some ["custom"] else none }
                  []
        ∧ p.Templates = ["custom"] := by
  refine ⟨by decide, ?_⟩
  obtain ⟨p, hp, hsome, -⟩ := service_template_override exampleEnv
    { exampleCollectd with
        templatesMap := fun name => if name = "cache1" then some ["custom"] else none }
    [] [] exampleService ⟨"cache1", "redis", "", 0, "", ["redis"]⟩ rfl (by decide)
  exact ⟨p, hp, hsome ["custom"] rfl⟩

/-- C9: `createPluginsFromServices` returns no error for any service list.
A service of an unsupported type contributes nothing and leaves the entries
of the services before and after it as they are. The output is, in input
order, what each service yields on its own, and a service yields one plugin
exactly when its type is supported and its resolved port is not zero. -/
theorem unsupported_services_skipped (env : Env) (c : Collectd) :
    (∀ sis, ∃ D, (createPluginsFromServices env c sis).1 = .ok D)
    ∧ (∀ pre post s e, env.NewPlugin s.Service.Typ s.Service.Name = .error e →
        servicePlugins env c (pre ++ s :: post)
          = servicePlugins env c pre ++ servicePlugins env c post)
    ∧ (∀ sis, servicePlugins env c sis
        = sis.filterMap (fun s => (servicePlugins env c [s]).head?))
    ∧ (∀ s, (servicePlugins env c [s]).length = if collectable env s = true then 1 else 0)
    ∧ (∀ sis, servicePlugins env c sis
        = servicePlugins env c (sis.filter (fun s => collectable env s))) := by
  have single : ∀ s, (servicePlugins env c [s]).head? = (serviceIteration env c s).1 := by
    intro s
    rw [servicePlugins_eq]
    cases h : (serviceIteration env c s).1 <;> simp [List.filterMap_cons, h]
  have hcomp : ∀ sis, servicePlugins env c sis
      = sis.filterMap (fun s => (servicePlugins env c [s]).head?) := by
    intro sis
    rw [servicePlugins_eq]
    congr 1
    funext s
    exact (single s).symm
  refine ⟨fun sis => ⟨_, createPlugins_result env c sis⟩, ?_, hcomp, ?_, ?_⟩
  · intro pre post s e he
    rw [servicePlugins_split, servicePlugins_unsupported env c s e he]
    simp
  · exact servicePlugins_single_length env c
  · intro sis
    rw [hcomp sis, hcomp (sis.filter _)]
    induction sis with
    | nil => rfl
    | cons s rest ih =>
      have hlen := servicePlugins_single_length env c s
      by_cases hcol : collectable env s = true
      · rw [List.filter_cons_of_pos hcol]
        simp only [List.filterMap_cons]
        rw [ih]
      · rw [List.filter_cons_of_neg hcol]
        simp only [hcol, if_false, Bool.false_eq_true] at hlen
        have hnil : servicePlugins env c [s] = [] := List.length_eq_zero.mp hlen
        simp only [List.filterMap_cons, hnil, List.head?_nil]
        exact ih

/-- C9 at a concrete input: an unsupported service between two copies of the
`redis` service changes nothing in the output. -/
theorem unsupported_services_skipped_witness :
    servicePlugins exampleEnv exampleCollectd
        ([exampleService] ++ unsupportedService :: [serviceWithID "c"])
      = servicePlugins exampleEnv exampleCollectd [exampleService]
          ++ servicePlugins exampleEnv exampleCollectd [serviceWithID "c"] :=
  (unsupported_services_skipped exampleEnv exampleCollectd).2.1 [exampleService]
    [serviceWithID "c"] unsupportedService ⟨"unsupported plugin type"⟩ rfl

/-! ## Lifecycle no-ops -/

/-- C10: `reload` does nothing unless the state is `Running`: in any other
state, `Stopped` included, it returns the state unchanged with an empty trace
(no send on `reloadChan`, no engine call). `Stop` in state `Stopped` returns
the state unchanged with an empty trace (no send on `stopChan`). Neither has
an error result. In state `Running`, `reload` does send on `reloadChan`, and
outside `Stopped`, `Stop` does send on `stopChan`. -/
theorem lifecycle_noops (c : Collectd) :
    (c.state ≠ Running → reload c = (c, []))
    ∧ (c.state = Stopped →
        (reload c).2 = [] ∧ (reload c).1 = c ∧ (reload c).1.state = Stopped)
    ∧ (c.state = Stopped → (Stop c).2 = [] ∧ (Stop c).1 = c ∧ (Stop c).1.state = Stopped)
    ∧ (c.state = Running → Event.reloadChanSend 1 ∈ (reload c).2)
    ∧ (c.state ≠ Stopped → Event.stopChanSend 0 ∈ (Stop c).2) := by
  have hsr : Stopped ≠ Running := by decide
  refine ⟨?_, ?_, ?_, ?_, ?_⟩
  · intro h
    simp [reload, h]
  · intro h
    have hne : c.state ≠ Running := by
      rw [h]
      exact hsr
    have hr : reload c = (c, []) := by
      simp [reload, hne]
    rw [hr]
    exact ⟨rfl, rfl, h⟩
  · intro h
    simp [Stop, h]
  · intro h
    simp [reload, h]
  · intro h
    simp [Stop, h]

/-- C10 at a concrete input: on the freshly constructed (stopped) monitor
`reload` and `Stop` leave an empty trace. -/
theorem lifecycle_noops_witness :
    (reload exampleCollectd).2 = [] ∧ (Stop exampleCollectd).2 = [] :=
  ⟨((lifecycle_noops exampleCollectd).2.1 rfl).1, ((lifecycle_noops exampleCollectd).2.2.1 rfl).1⟩

end CollectdMonitor
